import Mathlib

/-!
Verification of the customer-service dialogue dispatcher (`client.py`) and the
grading agent's JSON extraction (`grading_agent.py`).

Strings are modelled as `List Char`.  Python `re.search` over the fixed
patterns used by the source is embedded directly: each pattern starts with a
literal label, so a search is a scan for the leftmost occurrence of that label
at which the remainder of the pattern matches, exactly as the backtracking
engine behaves on these patterns.  The in-memory user database (a Python dict
keyed by integer ids) is modelled as a partial map `Nat → Option UserRecord`.
-/

namespace Agent

/-- Message roles, as the `role` field of the history dicts. -/
inductive Role where
  | system
  | user
  | assistant
deriving DecidableEq, Repr

/-- One entry of a message history: a `role`/`content` dict. -/
structure Msg where
  role : Role
  content : List Char
deriving DecidableEq, Repr

/-- The four keys of `self.messages` / values of `self.current_assignment`. -/
inductive Assignment where
  | system
  | registered
  | query
  | delete
deriving DecidableEq, Repr

/-- Python `\s` on the inputs at hand (ASCII whitespace). -/
def isPySpace (c : Char) : Bool :=
  c = ' ' || c = '\t' || c = '\n' || c = '\r' || c = '\x0b' || c = '\x0c'

/-- Python substring containment `needle in hay`. -/
def containsSub (needle : List Char) : List Char → Bool
  | [] => needle.isEmpty
  | c :: cs => needle.isPrefixOf (c :: cs) || containsSub needle cs

/-- The `(.*?)\]` tail of the marker patterns: the shortest span of
non-newline characters up to a closing bracket (`.` does not match a
newline, and the group is non-greedy, so it stops at the first bracket). -/
def bracketAfter : List Char → Option (List Char)
  | [] => none
  | c :: cs =>
    if c = ']' then some []
    else if c = '\n' then none
    else (bracketAfter cs).map (fun g => c :: g)

/-- `re.search(marker ++ "\[(.*?)\]", text)`: leftmost occurrence of the
marker literal that is followed by a closing bracket on the same line;
returns the captured bracket content. -/
def markerSearch (marker : List Char) : List Char → Option (List Char)
  | [] => none
  | c :: cs =>
    if marker.isPrefixOf (c :: cs) then
      match bracketAfter (List.drop marker.length (c :: cs)) with
      | some g => some g
      | none => markerSearch marker cs
    else markerSearch marker cs

/-- `re.search(label ++ "\s*(\S+)", d)`: leftmost occurrence of the label
followed by optional whitespace and at least one non-whitespace character;
the greedy capture is the maximal non-whitespace run. -/
def fieldSearchS (label : List Char) : List Char → Option (List Char)
  | [] => none
  | c :: cs =>
    if label.isPrefixOf (c :: cs) then
      match List.dropWhile isPySpace (List.drop label.length (c :: cs)) with
      | [] => fieldSearchS label cs
      | a :: rest => some (List.takeWhile (fun x => !(isPySpace x)) (a :: rest))
    else fieldSearchS label cs

/-- `re.search(label ++ "\s*(\d+)", d)`: as `fieldSearchS` but the first
character after the whitespace must be a digit and the capture is the
maximal digit run. -/
def fieldSearchD (label : List Char) : List Char → Option (List Char)
  | [] => none
  | c :: cs =>
    if label.isPrefixOf (c :: cs) then
      match List.dropWhile isPySpace (List.drop label.length (c :: cs)) with
      | [] => fieldSearchD label cs
      | a :: rest =>
        if a.isDigit then some (List.takeWhile Char.isDigit (a :: rest))
        else fieldSearchD label cs
    else fieldSearchD label cs

/-- Whether a list contains a dot that has at least one character before it
and at least one after it (the `\.\S+` tail inside a non-whitespace run). -/
def dotMid : List Char → Bool
  | [] => false
  | [_] => false
  | c :: cs => c = '.' || dotMid cs

/-- `y ++ "." ++ z` with `y, z` nonempty, inside a non-whitespace run. -/
def dotInside : List Char → Bool
  | [] => false
  | _ :: cs => dotMid cs

/-- Scan for an at-sign followed by a `dotInside` remainder. -/
def atAfter : List Char → Bool
  | [] => false
  | c :: cs => (c = '@' && dotInside cs) || atAfter cs

/-- Whether a non-whitespace run matches `\S+@\S+\.\S+` starting at its
first character (the match then extends greedily to the end of the run). -/
def emailShape : List Char → Bool
  | [] => false
  | _ :: cs => atAfter cs

/-- `re.search(label ++ "\s*(\S+@\S+\.\S+)", d)`: the captured group, when
the pattern matches, is the whole maximal non-whitespace run after the
label (the leading and trailing `\S+` are greedy). -/
def fieldSearchE (label : List Char) : List Char → Option (List Char)
  | [] => none
  | c :: cs =>
    if label.isPrefixOf (c :: cs) then
      match List.dropWhile isPySpace (List.drop label.length (c :: cs)) with
      | [] => fieldSearchE label cs
      | a :: rest =>
        if emailShape (List.takeWhile (fun x => !(isPySpace x)) (a :: rest)) then
          some (List.takeWhile (fun x => !(isPySpace x)) (a :: rest))
        else fieldSearchE label cs
    else fieldSearchE label cs

/-- Digit string to number, as Python `int` computes it on a digit string. -/
def natOfDigits (l : List Char) : Nat :=
  l.foldl (fun n c => 10 * n + (c.toNat - 48)) 0

/-- Python `int(s)` restricted to the captures produced by `(\d+)`:
succeeds exactly on nonempty all-digit strings. -/
def pyInt? (l : List Char) : Option Nat :=
  if !l.isEmpty && l.all Char.isDigit then some (natOfDigits l) else none

/-- The typed failures of the parsing helpers, matching the three
`[Parsing Error]` diagnostics of the source: marker not found, a field
pattern that did not match, and the `ValueError` guard on `int`. -/
inductive ParseError where
  | markerNotFound
  | missingField (f : String)
  | invalidFormat (f : String)
deriving DecidableEq, Repr

/-- The record parsed by `_parse_registration_info`. -/
structure RegInfo where
  name : List Char
  gender : List Char
  age : Nat
  password : List Char
  email : List Char
deriving DecidableEq, Repr

/-- The record parsed by `_parse_query_info`. -/
structure QueryInfo where
  user_id : Nat
  password : List Char
deriving DecidableEq, Repr

/-- The record parsed by `_parse_delete_info`. -/
structure DeleteInfo where
  user_id : Nat
  password : List Char
  email : List Char
deriving DecidableEq, Repr

/-- Marker literal of `用户信息：\[(.*?)\]`. -/
def regMarker : List Char := "用户信息：[".data

/-- Marker literal of `查询条件：\[(.*?)\]`. -/
def queryMarker : List Char := "查询条件：[".data

/-- Marker literal of `删除条件：\[(.*?)\]`. -/
def deleteMarker : List Char := "删除条件：[".data

/-- Label literal of the `name` pattern. -/
def nameLabel : List Char := "姓名:".data

/-- Label literal of the `gender` pattern. -/
def genderLabel : List Char := "性别:".data

/-- Label literal of the `age` pattern. -/
def ageLabel : List Char := "年龄:".data

/-- Label literal of the `password` pattern. -/
def pwLabel : List Char := "密码:".data

/-- Label literal of the `email` pattern. -/
def emailLabel : List Char := "邮箱:".data

/-- Label literal of the `user_id` pattern. -/
def uidLabel : List Char := "用户ID:".data

/-- `SmartAssistant._parse_registration_info`: find the bracketed marker,
then each field pattern in dict order (name, gender, age, password, email),
failing on the first field whose pattern does not match; finally convert
`age` with `int`. -/
def parse_registration_info (text : List Char) : Except ParseError RegInfo :=
  match markerSearch regMarker text with
  | none => Except.error ParseError.markerNotFound
  | some d =>
    match fieldSearchS nameLabel d with
    | none => Except.error (ParseError.missingField "name")
    | some nm =>
      match fieldSearchS genderLabel d with
      | none => Except.error (ParseError.missingField "gender")
      | some gd =>
        match fieldSearchD ageLabel d with
        | none => Except.error (ParseError.missingField "age")
        | some ag =>
          match fieldSearchS pwLabel d with
          | none => Except.error (ParseError.missingField "password")
          | some pw =>
            match fieldSearchE emailLabel d with
            | none => Except.error (ParseError.missingField "email")
            | some em =>
              match pyInt? ag with
              | none => Except.error (ParseError.invalidFormat "age")
              | some a => Except.ok ⟨nm, gd, a, pw, em⟩

/-- `SmartAssistant._parse_query_info`: marker, then user_id and password
patterns in dict order, then `int` on user_id. -/
def parse_query_info (text : List Char) : Except ParseError QueryInfo :=
  match markerSearch queryMarker text with
  | none => Except.error ParseError.markerNotFound
  | some d =>
    match fieldSearchD uidLabel d with
    | none => Except.error (ParseError.missingField "user_id")
    | some uid =>
      match fieldSearchS pwLabel d with
      | none => Except.error (ParseError.missingField "password")
      | some pw =>
        match pyInt? uid with
        | none => Except.error (ParseError.invalidFormat "user_id")
        | some u => Except.ok ⟨u, pw⟩

/-- `SmartAssistant._parse_delete_info`: marker, then user_id, password and
email patterns in dict order, then `int` on user_id. -/
def parse_delete_info (text : List Char) : Except ParseError DeleteInfo :=
  match markerSearch deleteMarker text with
  | none => Except.error ParseError.markerNotFound
  | some d =>
    match fieldSearchD uidLabel d with
    | none => Except.error (ParseError.missingField "user_id")
    | some uid =>
      match fieldSearchS pwLabel d with
      | none => Except.error (ParseError.missingField "password")
      | some pw =>
        match fieldSearchE emailLabel d with
        | none => Except.error (ParseError.missingField "email")
        | some em =>
          match pyInt? uid with
          | none => Except.error (ParseError.invalidFormat "user_id")
          | some u => Except.ok ⟨u, pw, em⟩

/-- A stored user record, as the value dict written by `_register_user`.
The password is stored verbatim. -/
structure UserRecord where
  name : List Char
  gender : List Char
  age : Nat
  password : List Char
  email : List Char
deriving DecidableEq, Repr

/-- A query result: the stored record with the password key filtered out
(`{k: v for k, v in user_info.items() if k != 'password'}`). -/
structure PublicRecord where
  name : List Char
  gender : List Char
  age : Nat
  email : List Char
deriving DecidableEq, Repr

/-- `self.user_database`, a dict keyed by integer user id, modelled as a
partial map. -/
def Store : Type := Nat → Option UserRecord

/-- `SmartAssistant._register_user`: store the parsed fields under the id
`next_user_id`, increment the counter, and return the new map, the new
counter and the assigned id. -/
def register_user (db : Store) (nextUserId : Nat) (info : RegInfo) :
    Store × Nat × Nat :=
  (fun i => if i = nextUserId then
      some ⟨info.name, info.gender, info.age, info.password, info.email⟩
    else db i,
   nextUserId + 1, nextUserId)

/-- `SmartAssistant._query_user`: return the record minus its password if
the id exists and the stored password equals the given one, else `None`.
(The stored dict is nonempty, so Python truthiness of `user_info` is
exactly `isSome`.) -/
def query_user (db : Store) (user_id : Nat) (password : List Char) :
    Option PublicRecord :=
  match db user_id with
  | some r =>
    if r.password = password then some ⟨r.name, r.gender, r.age, r.email⟩
    else none
  | none => none

/-- `SmartAssistant._delete_user`: remove the record and return `True` only
if the id exists and both stored password and stored email equal the given
ones; otherwise return the map unchanged and `False`. -/
def delete_user (db : Store) (user_id : Nat) (password email : List Char) :
    Store × Bool :=
  match db user_id with
  | some r =>
    if r.password = password ∧ r.email = email then
      (fun i => if i = user_id then none else db i, true)
    else (db, false)
  | none => (db, false)

/-- `sys_prompt`, the main dispatcher instruction. -/
def sysPromptD : List Char :=
  ("你是一个聪明的客服。您将能够根据用户的问题将不同的任务分配给不同的人。您有以下业务线：\n1.用户注册。如果用户想要执行这样的操作，您应该发送一个带有\"registered workers\"的特殊令牌。并告诉用户您正在调用它。\n2.用户数据查询。如果用户想要执行这样的操作，您应该发送一个带有\"query workers\"的特殊令牌。并告诉用户您正在调用它。\n3.删除用户数据。如果用户想执行这种类型的操作，您应该发送一个带有\"delete workers\"的特殊令牌。并告诉用户您正在调用它。\n").data

/-- `registered_prompt`, the registration worker instruction. -/
def registeredPromptD : List Char :=
  ("\n您的任务是根据用户信息存储数据。您需要从用户那里获得以下信息：\n1.用户名、性别、年龄 (例如：姓名: 张三, 性别: 男, 年龄: 25)\n2.用户设置的密码 (例如：密码: password123)\n3.用户的电子邮件地址 (例如：邮箱: zhangsan@example.com)\n如果用户没有提供此信息，您需要提示用户提供。收集完所有信息后，请确认信息并准备存储。\n最后，请明确告知用户注册成功，并按照以下格式包含用户信息：\n\x27注册成功！用户信息：[姓名: <姓名>, 性别: <性别>, 年龄: <年龄>, 密码: <密码>, 邮箱: <邮箱>]\x27\n然后回复带有 \"customer service\" 的特殊令牌，以结束任务。\n").data

/-- `query_prompt`, the lookup worker instruction. -/
def queryPromptD : List Char :=
  ("\n您的任务是查询用户信息。您需要从用户那里获得以下信息：\n1.用户ID (例如：用户ID: 10001)\n2.用户设置的密码 (例如：密码: password123)\n如果用户没有提供此信息，则需要提示用户提供。收集完信息后，请明确告知用户您将要查询，并按照以下格式包含查询条件：\n\x27正在查询... 查询条件：[用户ID: <ID>, 密码: <密码>]\x27\n然后回复带有 \"customer service\" 的特殊令牌，以结束任务。（实际查询将在后台完成）\n").data

/-- `delete_prompt`, the deletion worker instruction. -/
def deletePromptD : List Char :=
  ("\n您的任务是删除用户信息。您需要从用户那里获得以下信息：\n1.用户ID (例如：用户ID: 10001)\n2.用户设置的密码 (例如：密码: password123)\n3.用户的电子邮件地址 (例如：邮箱: zhangsan@example.com)\n如果用户没有提供此信息，则需要提示用户提供该信息。收集完所有信息后，请确认信息并准备删除。\n最后，请明确告知用户将进行删除操作（并模拟发送验证码），并按照以下格式包含条件：\n\x27将删除用户... 删除条件：[用户ID: <ID>, 密码: <密码>, 邮箱: <邮箱>]\x27\n然后回复带有 \"customer service\" 的特殊令牌，以结束任务。（实际删除将在后台完成）\n").data

/-- Trigger substring switching to the registration worker. -/
def rwTrig : List Char := "registered workers".data

/-- Trigger substring switching to the lookup worker. -/
def qwTrig : List Char := "query workers".data

/-- Trigger substring switching to the deletion worker. -/
def dwTrig : List Char := "delete workers".data

/-- Trigger substring returning to the main customer-service state. -/
def csTrig : List Char := "customer service".data

/-- The mutable state of a `SmartAssistant` instance: the four message
histories, the active assignment, the user database and the id counter. -/
structure AgentState where
  msgSystem : List Msg
  msgRegistered : List Msg
  msgQuery : List Msg
  msgDelete : List Msg
  currentAssignment : Assignment
  userDatabase : Store
  nextUserId : Nat

/-- `self.messages[a]`. -/
def hist (st : AgentState) : Assignment → List Msg
  | Assignment.system => st.msgSystem
  | Assignment.registered => st.msgRegistered
  | Assignment.query => st.msgQuery
  | Assignment.delete => st.msgDelete

/-- `self.messages[a] = l`. -/
def setHist (st : AgentState) : Assignment → List Msg → AgentState
  | Assignment.system, l => { st with msgSystem := l }
  | Assignment.registered, l => { st with msgRegistered := l }
  | Assignment.query, l => { st with msgQuery := l }
  | Assignment.delete, l => { st with msgDelete := l }

/-- `getattr(self, f"{a}_prompt")`: the original instruction text of each
state, as set in `__init__` and never reassigned. -/
def promptFor : Assignment → List Char
  | Assignment.system => sysPromptD
  | Assignment.registered => registeredPromptD
  | Assignment.query => queryPromptD
  | Assignment.delete => deletePromptD

/-- The state built by `SmartAssistant.__init__`. -/
def initialState : AgentState where
  msgSystem := [⟨Role.system, sysPromptD⟩]
  msgRegistered := [⟨Role.system, registeredPromptD⟩]
  msgQuery := [⟨Role.system, queryPromptD⟩]
  msgDelete := [⟨Role.system, deletePromptD⟩]
  currentAssignment := Assignment.system
  userDatabase := fun _ => none
  nextUserId := 10001

/-- Python `repr` of the filtered user-info dict interpolated by the query
success message (keys in insertion order; the string values at hand contain
no quote characters, so `repr` quotes them with single quotes). -/
def pyReprRecord (r : PublicRecord) : List Char :=
  "\x7b\x27name\x27: \x27".data ++ r.name ++
    "\x27, \x27gender\x27: \x27".data ++ r.gender ++
    "\x27, \x27age\x27: ".data ++ (toString r.age).data ++
    ", \x27email\x27: \x27".data ++ r.email ++ "\x27\x7d".data

/-- Prefix of `f" (您的用户 ID 是: {new_user_id})"`. -/
def regOkPre : List Char := " (您的用户 ID 是: ".data

/-- Suffix of `f" (您的用户 ID 是: {new_user_id})"`. -/
def regOkSuf : List Char := ")".data

/-- Registration parse-failure notice. -/
def regErrMsg : List Char := " (错误：注册信息解析失败，未能存储用户)".data

/-- Prefix of the query success message. -/
def querySuccPre : List Char := " \n查询成功！您的信息如下： ".data

/-- Query mismatch notice. -/
def queryFailMsg : List Char := " \n查询失败：用户ID或密码错误。".data

/-- Query parse-failure notice. -/
def queryErrMsg : List Char := " (错误：查询信息解析失败)".data

/-- Deletion success notice. -/
def delOkMsg : List Char := " \n用户删除成功！".data

/-- Deletion mismatch notice. -/
def delFailMsg : List Char := " \n删除失败：用户信息不匹配。".data

/-- Deletion parse-failure notice. -/
def delErrMsg : List Char := " (错误：删除信息解析失败)".data

/-- The database action performed when a `customer service` response ends
the task `st.currentAssignment`: the suffix message appended to the
response, the resulting database map and the resulting id counter.  No
branch of the source handles the `system` case, so there the suffix stays
empty and the database untouched. -/
def dbAction (st : AgentState) (ai : List Char) : List Char × Store × Nat :=
  match st.currentAssignment with
  | Assignment.registered =>
    match parse_registration_info ai with
    | Except.ok info =>
      let t := register_user st.userDatabase st.nextUserId info
      (regOkPre ++ (toString t.2.2).data ++ regOkSuf, t.1, t.2.1)
    | Except.error _ => (regErrMsg, st.userDatabase, st.nextUserId)
  | Assignment.query =>
    match parse_query_info ai with
    | Except.ok info =>
      match query_user st.userDatabase info.user_id info.password with
      | some r => (querySuccPre ++ pyReprRecord r, st.userDatabase, st.nextUserId)
      | none => (queryFailMsg, st.userDatabase, st.nextUserId)
    | Except.error _ => (queryErrMsg, st.userDatabase, st.nextUserId)
  | Assignment.delete =>
    match parse_delete_info ai with
    | Except.ok info =>
      let t := delete_user st.userDatabase info.user_id info.password info.email
      (if t.2 then delOkMsg else delFailMsg, t.1, st.nextUserId)
    | Except.error _ => (delErrMsg, st.userDatabase, st.nextUserId)
  | Assignment.system => ([], st.userDatabase, st.nextUserId)

/-- The `customer service` branch of `get_response`, after the database
action: append the annotated response to the finished task's history,
extend the system history with that history minus its first entry, reset
the finished task's history to its system prompt, switch to `system`, and
return the annotated response.  The steps are performed in source order;
when the finished task is `system` itself the extend reads the
already-appended system history (Python list aliasing). -/
def finalizeTurn (st : AgentState) (ai : List Char) : AgentState × List Char :=
  let a := dbAction st ai
  let prev := st.currentAssignment
  let annotated := ai ++ a.1
  let st1 := setHist st prev (hist st prev ++ [⟨Role.assistant, annotated⟩])
  let st2 := setHist st1 Assignment.system
    (hist st1 Assignment.system ++ List.drop 1 (hist st1 prev))
  let st3 := setHist st2 prev [⟨Role.system, promptFor prev⟩]
  ({ st3 with currentAssignment := Assignment.system,
              userDatabase := a.2.1, nextUserId := a.2.2 }, annotated)

/-- `if not current_messages or current_messages[-1]["role"] != "user"`. -/
def needsUserAppend (l : List Msg) : Bool :=
  match l.getLast? with
  | none => true
  | some m => decide (m.role ≠ Role.user)

/-- One switch to `target`: append the trigger response to the current
history, switch the assignment, and append the original user input to the
new history unless its last entry is already a user entry. -/
def switchTo (st : AgentState) (target : Assignment) (ai u : List Char) :
    AgentState :=
  let st1 := setHist st st.currentAssignment
    (hist st st.currentAssignment ++ [⟨Role.assistant, ai⟩])
  let st2 := { st1 with currentAssignment := target }
  if needsUserAppend (hist st2 target) then
    setHist st2 target (hist st2 target ++ [⟨Role.user, u⟩])
  else st2

/-- The `while True` dispatch loop of `get_response`.  Each iteration
consumes the next model response; the trigger checks are the `if`/`elif`
chain of the source in its priority order.  Exhaustion of the response
list models the completion call raising after its retries: the exception
propagates to the caller with all mutations made so far retained, which
the embedding renders as `Except.error` carrying the state at that point. -/
def turnLoop (st : AgentState) (u : List Char) :
    List (List Char) → Except AgentState (AgentState × List Char)
  | [] => Except.error st
  | ai :: rest =>
    if containsSub rwTrig ai = true then
      turnLoop (switchTo st Assignment.registered ai u) u rest
    else if containsSub qwTrig ai = true then
      turnLoop (switchTo st Assignment.query ai u) u rest
    else if containsSub dwTrig ai = true then
      turnLoop (switchTo st Assignment.delete ai u) u rest
    else if containsSub csTrig ai = true then
      Except.ok (finalizeTurn st ai)
    else
      Except.ok
        (setHist st st.currentAssignment
          (hist st st.currentAssignment ++ [⟨Role.assistant, ai⟩]), ai)

/-- `SmartAssistant.get_response`: append the user input to the active
history, then run the dispatch loop against the given sequence of model
responses. -/
def getResponse (st : AgentState) (u : List Char)
    (responses : List (List Char)) : Except AgentState (AgentState × List Char) :=
  turnLoop
    (setHist st st.currentAssignment
      (hist st st.currentAssignment ++ [⟨Role.user, u⟩]))
    u responses

/-- A whole session: one `get_response` call per `(user input, model
response)` pair, each turn consuming a single model response. -/
def runTurns (st : AgentState) :
    List (List Char × List Char) → Except AgentState AgentState
  | [] => Except.ok st
  | (u, r) :: rest =>
    match getResponse st u [r] with
    | Except.ok p => runTurns p.1 rest
    | Except.error e => Except.error e

/-- The user and assistant entries a sequence of trigger-free turns
appends to the active history. -/
def turnEntries : List (List Char × List Char) → List Msg
  | [] => []
  | (u, r) :: rest => ⟨Role.user, u⟩ :: ⟨Role.assistant, r⟩ :: turnEntries rest

/-- A model response containing none of the four trigger substrings. -/
def noTriggerResp (r : List Char) : Bool :=
  !containsSub rwTrig r && !containsSub qwTrig r &&
    !containsSub dwTrig r && !containsSub csTrig r

/-- Main history of a successful turn result. -/
def turnMainHist : Except AgentState (AgentState × List Char) → Option (List Msg)
  | Except.ok p => some p.1.msgSystem
  | Except.error _ => none

/-- Active assignment of a successful turn result. -/
def turnAssignOf : Except AgentState (AgentState × List Char) → Option Assignment
  | Except.ok p => some p.1.currentAssignment
  | Except.error _ => none

/-- Returned text of a successful turn result. -/
def turnTextOf : Except AgentState (AgentState × List Char) → Option (List Char)
  | Except.ok p => some p.2
  | Except.error _ => none

/-- Whether a turn ended in a propagated exception. -/
def turnIsError : Except AgentState (AgentState × List Char) → Bool
  | Except.ok _ => false
  | Except.error _ => true

/-- Main history of the state carried by a propagated exception. -/
def turnErrMainHist : Except AgentState (AgentState × List Char) → Option (List Msg)
  | Except.ok _ => none
  | Except.error st => some st.msgSystem

/-- `text.replace("\n", "")` in `extract_json_content`. -/
def removeNewlines (l : List Char) : List Char :=
  l.filter (fun c => c ≠ '\n')

/-- Opening literal of the fenced-block pattern. -/
def openFence : List Char := "```json".data

/-- Closing literal of the fenced-block pattern. -/
def closeFence : List Char := "```".data

/-- The non-greedy `(.*?)` of the fence pattern under `re.DOTALL`: the
shortest span up to the first closing fence. -/
def findClose : List Char → Option (List Char)
  | [] => none
  | c :: cs =>
    if closeFence.isPrefixOf (c :: cs) then some []
    else (findClose cs).map (fun g => c :: g)

/-- First match of `re.findall(r"```json(.*?)```", t, re.DOTALL)`: the
leftmost opening fence that is followed by a closing fence, with the
shortest captured content. -/
def findFence : List Char → Option (List Char)
  | [] => none
  | c :: cs =>
    if openFence.isPrefixOf (c :: cs) then
      match findClose (List.drop openFence.length (c :: cs)) with
      | some mid => some mid
      | none => findFence cs
    else findFence cs

/-- Python `str.strip()`. -/
def pyStrip (l : List Char) : List Char :=
  ((l.dropWhile isPySpace).reverse.dropWhile isPySpace).reverse

/-- `extract_json_content` of `grading_agent.py`: remove every newline,
then return the stripped content of the first ```json fence if one exists,
otherwise the (newline-stripped) text itself. -/
def extract_json_content (text : List Char) : List Char :=
  let t := removeNewlines text
  match findFence t with
  | some mid => pyStrip mid
  | none => t

/-- Prefix of the message of the exception raised on a parse failure. -/
def invalidJsonMsgPre : List Char := "Invalid JSON output after extraction: \x27".data

/-- Suffix of the message of the exception raised on a parse failure. -/
def invalidJsonMsgSuf : List Char := "\x27".data

/-- `JsonOutputParser.parse`, with `json.loads` abstracted as a function
`loads` that returns `none` exactly where `json.loads` raises
`JSONDecodeError`: extract the JSON content, parse it, and on failure
raise (model: `Except.error`) the informative exception. -/
def jsonParserParse {α : Type} (loads : List Char → Option α)
    (result : List Char) : Except (List Char) α :=
  let js := extract_json_content result
  match loads js with
  | some v => Except.ok v
  | none => Except.error (invalidJsonMsgPre ++ js ++ invalidJsonMsgSuf)

/-- The registration schema's field searches over a bracketed span, in the
dict order of the source, paired with their field names. -/
def regFieldResults (d : List Char) : List (String × Option (List Char)) :=
  [("name", fieldSearchS nameLabel d),
   ("gender", fieldSearchS genderLabel d),
   ("age", fieldSearchD ageLabel d),
   ("password", fieldSearchS pwLabel d),
   ("email", fieldSearchE emailLabel d)]

/-- Names of the registration fields whose pattern fails on a span. -/
def regFailing (d : List Char) : List String :=
  ((regFieldResults d).filter (fun p => p.2.isNone)).map Prod.fst

/-- The lookup schema's field searches, in dict order. -/
def queryFieldResults (d : List Char) : List (String × Option (List Char)) :=
  [("user_id", fieldSearchD uidLabel d),
   ("password", fieldSearchS pwLabel d)]

/-- Names of the lookup fields whose pattern fails on a span. -/
def queryFailing (d : List Char) : List String :=
  ((queryFieldResults d).filter (fun p => p.2.isNone)).map Prod.fst

/-- The deletion schema's field searches, in dict order. -/
def deleteFieldResults (d : List Char) : List (String × Option (List Char)) :=
  [("user_id", fieldSearchD uidLabel d),
   ("password", fieldSearchS pwLabel d),
   ("email", fieldSearchE emailLabel d)]

/-- Names of the deletion fields whose pattern fails on a span. -/
def deleteFailing (d : List Char) : List String :=
  ((deleteFieldResults d).filter (fun p => p.2.isNone)).map Prod.fst

/-- A registration confirmation lacking the password field. -/
def regTextMissingPw : List Char :=
  ("注册成功！用户信息：[姓名: 张三, 性别: 男, 年龄: 25, 邮箱: a@b.com] customer service").data

/-- The bracketed span of `regTextMissingPw`. -/
def regSpanMissingPw : List Char :=
  ("姓名: 张三, 性别: 男, 年龄: 25, 邮箱: a@b.com").data

/-- A registration confirmation with a non-numeric age value. -/
def ageBadText : List Char :=
  ("用户信息：[姓名: 张三, 性别: 男, 年龄: abc, 密码: p1, 邮箱: a@b.com]").data

/-- The bracketed span of `ageBadText`. -/
def ageBadSpan : List Char :=
  ("姓名: 张三, 性别: 男, 年龄: abc, 密码: p1, 邮箱: a@b.com").data

/-- A model output with no fenced block and an embedded newline. -/
def rawNewlineNum : List Char := ("12\n34").data

/-- `rawNewlineNum` with its newline removed. -/
def joinedNum : List Char := ("1234").data

/-- A stand-in for `json.loads` that agrees with it on the two inputs of
the counterexample: `12\n34` is rejected by `json.loads` (trailing data)
while `1234` parses as a number. -/
def loadsCex : List Char → Option Unit :=
  fun l => if l = joinedNum then some () else none

/-- A model output carrying a fenced JSON block. -/
def fencedW : List Char := ("答案```json 7``` 完").data

/-- The captured content of the fence in `fencedW`. -/
def fencedWMid : List Char := (" 7").data

/-- A stand-in for `json.loads` accepting exactly the stripped content of
the fence in `fencedW`. -/
def loadsW : List Char → Option Unit :=
  fun l => if l = ("7").data then some () else none

/-- A trigger-free model response used to end the unbounded-switch runs. -/
def plainOk : List Char := ("好的").data

/-- A state with the registration sub-dialogue active. -/
def stRegW : AgentState :=
  { initialState with currentAssignment := Assignment.registered }

/-- The registration fields used by the concrete store witnesses. -/
def infoW : RegInfo :=
  ⟨("张三").data, ("男").data, 25, ("pass1").data, ("a@b.com").data⟩

/-- The store after registering `infoW` into an empty database. -/
def dbW : Store := (register_user (fun _ => none) 10001 infoW).1

theorem hist_setHist_same (st : AgentState) (a : Assignment) (l : List Msg) :
    hist (setHist st a l) a = l := by
  cases a <;> rfl

theorem hist_setHist_ne (st : AgentState) (a b : Assignment) (l : List Msg)
    (h : a ≠ b) : hist (setHist st a l) b = hist st b := by
  cases a <;> cases b <;> first | rfl | exact absurd rfl h

theorem setHist_setHist_same (st : AgentState) (a : Assignment)
    (l1 l2 : List Msg) : setHist (setHist st a l1) a l2 = setHist st a l2 := by
  cases a <;> rfl

theorem currentAssignment_setHist (st : AgentState) (a : Assignment)
    (l : List Msg) : (setHist st a l).currentAssignment = st.currentAssignment := by
  cases a <;> rfl

theorem msgSystem_eq_hist (st : AgentState) :
    st.msgSystem = hist st Assignment.system := rfl

/-- C9: the claim that a completion failure leaves the dispatcher state
exactly as before the turn is false: `get_response` appends the user entry
to the active history before the completion call, and an exception raised
by that call propagates with the append retained.  At the concrete failing
input (initial state, input 你好, gateway failing on the first call) the
escaped state's Main history is the original one plus the user entry. -/
theorem C9_counterexample :
    turnErrMainHist (getResponse initialState (("你好").data) []) =
      some (initialState.msgSystem ++ [⟨Role.user, ("你好").data⟩])
    ∧ initialState.msgSystem ++ [⟨Role.user, ("你好").data⟩] ≠ initialState.msgSystem := by
  constructor
  · rfl
  · intro h
    simpa using congrArg List.length h

/-- C9 (amended): if the completion call fails on the first gateway call of
a turn, the exception propagates to the caller (modelled by `Except.error`),
the active state pointer is unchanged, and no assistant entry is appended —
but the turn's user entry does remain appended to the active history. -/
theorem C9_gateway_failure_keeps_user_entry (st : AgentState) (u : List Char) :
    getResponse st u [] =
      Except.error (setHist st st.currentAssignment
        (hist st st.currentAssignment ++ [⟨Role.user, u⟩]))
    ∧ (setHist st st.currentAssignment
        (hist st st.currentAssignment ++ [⟨Role.user, u⟩])).currentAssignment
        = st.currentAssignment :=
  ⟨rfl, currentAssignment_setHist st st.currentAssignment _⟩

/-- C9 (amended) witness at the initial state and a concrete input. -/
theorem C9_witness :
    getResponse initialState (("在吗").data) [] =
      Except.error (setHist initialState Assignment.system
        (hist initialState Assignment.system ++ [⟨Role.user, ("在吗").data⟩]))
    ∧ (setHist initialState Assignment.system
        (hist initialState Assignment.system ++ [⟨Role.user, ("在吗").data⟩])).currentAssignment
        = Assignment.system :=
  C9_gateway_failure_keeps_user_entry initialState (("在吗").data)

/-- C1: with the active state Main, a response containing the
return-to-Main trigger and no switch trigger is not treated as a plain
continuation.  The finalize branch runs with `previous_assignment ==
"system"`: it extends the Main history with a copy of itself and then the
reset line overwrites the Main history with a single fresh system entry,
so the whole Main transcript (including this turn's user entry and
assistant response) is discarded instead of appended. -/
theorem C1_main_history_reset :
    turnMainHist (getResponse initialState (("你好").data) [("customer service").data])
      = some [⟨Role.system, sysPromptD⟩]
    ∧ turnAssignOf (getResponse initialState (("你好").data) [("customer service").data])
      = some Assignment.system
    ∧ turnTextOf (getResponse initialState (("你好").data) [("customer service").data])
      = some (("customer service").data)
    ∧ ([⟨Role.system, sysPromptD⟩] : List Msg) ≠
        initialState.msgSystem ++
          [⟨Role.user, ("你好").data⟩, ⟨Role.assistant, ("customer service").data⟩] := by
  refine ⟨rfl, rfl, rfl, ?_⟩
  intro h
  simpa using congrArg List.length h

/-- C3: the dispatch loop has no iteration cap.  With four states the
claimed bound is five iterations, but a turn driven by six switch-trigger
responses followed by a trigger-free one performs seven gateway calls and
still completes normally — no `ExhaustedTransitions` error exists and no
rollback happens. -/
theorem C3_counterexample :
    turnTextOf (getResponse initialState (("请注册").data)
        (List.replicate 6 rwTrig ++ [plainOk])) = some plainOk
    ∧ turnIsError (getResponse initialState (("请注册").data)
        (List.replicate 6 rwTrig ++ [plainOk])) = false :=
  ⟨rfl, rfl⟩

/-- C3 (amended): the `while True` loop of `get_response` is uncapped: for
every `n`, a turn whose model responses are `n` switch-trigger responses
followed by one trigger-free response consumes all `n + 1` responses and
returns normally; the source defines no `ExhaustedTransitions` failure and
performs no rollback. -/
theorem C3_no_iteration_cap (n : Nat) (st : AgentState) (u : List Char) :
    ∃ st', turnLoop st u (List.replicate n rwTrig ++ [plainOk]) =
      Except.ok (st', plainOk) := by
  induction n generalizing st with
  | zero =>
    have h1 : containsSub rwTrig plainOk = false := by decide
    have h2 : containsSub qwTrig plainOk = false := by decide
    have h3 : containsSub dwTrig plainOk = false := by decide
    have h4 : containsSub csTrig plainOk = false := by decide
    exact ⟨setHist st st.currentAssignment
      (hist st st.currentAssignment ++ [⟨Role.assistant, plainOk⟩]),
      by simp [turnLoop, h1, h2, h3, h4]⟩
  | succ n ih =>
    have hr : containsSub rwTrig rwTrig = true := by decide
    rw [List.replicate_succ, List.cons_append, turnLoop]
    simp only [hr, if_pos]
    exact ih (switchTo st Assignment.registered rwTrig u)

theorem noTriggerResp_spec (r : List Char) (h : noTriggerResp r = true) :
    containsSub rwTrig r = false ∧ containsSub qwTrig r = false ∧
      containsSub dwTrig r = false ∧ containsSub csTrig r = false := by
  simp only [noTriggerResp, Bool.and_eq_true, Bool.not_eq_true'] at h
  exact ⟨h.1.1.1, h.1.1.2, h.1.2, h.2⟩

theorem getResponse_plain_step (st : AgentState) (u r : List Char)
    (h : noTriggerResp r = true) :
    getResponse st u [r] =
      Except.ok (setHist st st.currentAssignment
        (hist st st.currentAssignment ++
          [⟨Role.user, u⟩, ⟨Role.assistant, r⟩]), r) := by
  obtain ⟨h1, h2, h3, h4⟩ := noTriggerResp_spec r h
  unfold getResponse
  rw [turnLoop]
  simp [h1, h2, h3, h4, currentAssignment_setHist, hist_setHist_same,
    setHist_setHist_same]

/-- C4: over any sequence of turns whose model responses contain no trigger
substring, starting from an active state of Main, the active state stays
Main, the Main history grows by exactly one user entry followed by one
assistant entry per turn, and the three sub-dialogue histories are
untouched. -/
theorem C4_trigger_free_turns (turns : List (List Char × List Char)) :
    ∀ st : AgentState, st.currentAssignment = Assignment.system →
    (∀ p ∈ turns, noTriggerResp p.2 = true) →
    ∃ st', runTurns st turns = Except.ok st'
      ∧ st'.currentAssignment = Assignment.system
      ∧ st'.msgSystem = st.msgSystem ++ turnEntries turns
      ∧ st'.msgRegistered = st.msgRegistered
      ∧ st'.msgQuery = st.msgQuery
      ∧ st'.msgDelete = st.msgDelete := by
  induction turns with
  | nil =>
    intro st hc _
    exact ⟨st, rfl, hc, by simp [turnEntries], rfl, rfl, rfl⟩
  | cons p rest ih =>
    intro st hc hall
    obtain ⟨u, r⟩ := p
    have hr : noTriggerResp r = true := hall (u, r) (by simp)
    have hstep := getResponse_plain_step st u r hr
    rw [hc] at hstep
    obtain ⟨st', hrun, ha, hm, hreg, hq, hd⟩ :=
      ih (setHist st Assignment.system
            (hist st Assignment.system ++ [⟨Role.user, u⟩, ⟨Role.assistant, r⟩]))
        (by rw [currentAssignment_setHist, hc])
        (fun q hq => hall q (by simp [hq]))
    refine ⟨st', ?_, ha, ?_, ?_, ?_, ?_⟩
    · rw [runTurns, hstep]
      exact hrun
    · rw [hm]
      simp [setHist, hist, turnEntries]
    · rw [hreg]; rfl
    · rw [hq]; rfl
    · rw [hd]; rfl

/-- C4 witness: two concrete trigger-free turns from the initial state. -/
theorem C4_witness :
    ∃ st', runTurns initialState
        [(("你好呀").data, ("很高兴认识你").data),
         (("天气怎么样").data, ("不错").data)] = Except.ok st'
      ∧ st'.currentAssignment = Assignment.system
      ∧ st'.msgSystem = initialState.msgSystem ++ turnEntries
          [(("你好呀").data, ("很高兴认识你").data),
           (("天气怎么样").data, ("不错").data)]
      ∧ st'.msgRegistered = initialState.msgRegistered
      ∧ st'.msgQuery = initialState.msgQuery
      ∧ st'.msgDelete = initialState.msgDelete :=
  C4_trigger_free_turns _ initialState rfl (by decide)

theorem hist_meta_update (st : AgentState) (c : Assignment) (db : Store)
    (n : Nat) (a : Assignment) :
    hist { st with currentAssignment := c, userDatabase := db,
                   nextUserId := n } a = hist st a := by
  cases a <;> rfl

/-- C2: when the active state is a non-Main sub-dialogue `T` and the next
model response carries the return-to-Main trigger and no switch trigger,
the turn ends with: `MessageHistory[T]` reset to exactly one system entry
holding `T`'s original instruction, every entry of `T`'s pre-merge history
except its first appended onto the Main history in order (the pre-merge
history being `T`'s history plus the annotated assistant entry recorded by
the finalize branch), and the active state Main. -/
theorem C2_finalize_merges_and_resets (st : AgentState) (u ai : List Char)
    (rest : List (List Char))
    (hT : st.currentAssignment ≠ Assignment.system)
    (h1 : containsSub rwTrig ai = false) (h2 : containsSub qwTrig ai = false)
    (h3 : containsSub dwTrig ai = false) (h4 : containsSub csTrig ai = true) :
    ∃ st' dbMsg,
      turnLoop st u (ai :: rest) = Except.ok (st', ai ++ dbMsg)
      ∧ st'.currentAssignment = Assignment.system
      ∧ hist st' st.currentAssignment =
          [⟨Role.system, promptFor st.currentAssignment⟩]
      ∧ st'.msgSystem = st.msgSystem ++
          List.drop 1 (hist st st.currentAssignment ++
            [⟨Role.assistant, ai ++ dbMsg⟩]) := by
  refine ⟨(finalizeTurn st ai).1, (dbAction st ai).1, ?_, ?_, ?_, ?_⟩
  · rw [turnLoop]
    simp only [h1, h2, h3, h4, Bool.false_eq_true, if_false, if_true]
    rfl
  · rfl
  · show hist (finalizeTurn st ai).1 st.currentAssignment = _
    unfold finalizeTurn
    rw [hist_meta_update, hist_setHist_same]
  · show hist (finalizeTurn st ai).1 Assignment.system = _
    unfold finalizeTurn
    rw [hist_meta_update, hist_setHist_ne _ _ _ _ hT, hist_setHist_same,
      hist_setHist_ne _ _ _ _ hT, hist_setHist_same,
      msgSystem_eq_hist]

/-- C2 witness: the registration state finalized by a concrete response. -/
theorem C2_witness :
    ∃ st' dbMsg,
      turnLoop stRegW (("请注册").data) [("好，结束。customer service").data] =
        Except.ok (st', ("好，结束。customer service").data ++ dbMsg)
      ∧ st'.currentAssignment = Assignment.system
      ∧ hist st' stRegW.currentAssignment =
          [⟨Role.system, promptFor stRegW.currentAssignment⟩]
      ∧ st'.msgSystem = stRegW.msgSystem ++
          List.drop 1 (hist stRegW stRegW.currentAssignment ++
            [⟨Role.assistant, ("好，结束。customer service").data ++ dbMsg⟩]) :=
  C2_finalize_merges_and_resets stRegW (("请注册").data)
    (("好，结束。customer service").data) [] (by decide)
    (by decide) (by decide) (by decide) (by decide)

/-- C7: `create` followed immediately by `read` with the same password
returns the stored fields minus the password; and `read` returns the
identical `None` outcome both for a missing id and for a wrong password,
so the two cases are indistinguishable from the return value. -/
theorem C7_create_read_roundtrip :
    (∀ (db : Store) (nid : Nat) (info : RegInfo),
        query_user (register_user db nid info).1
            (register_user db nid info).2.2 info.password =
          some ⟨info.name, info.gender, info.age, info.email⟩)
    ∧ (∀ (db : Store) (uid : Nat) (pw : List Char),
        db uid = none → query_user db uid pw = none)
    ∧ (∀ (db : Store) (uid : Nat) (pw : List Char) (r : UserRecord),
        db uid = some r → r.password ≠ pw → query_user db uid pw = none) := by
  refine ⟨?_, ?_, ?_⟩
  · intro db nid info
    simp [register_user, query_user]
  · intro db uid pw h
    simp [query_user, h]
  · intro db uid pw r h hne
    simp [query_user, h, hne]

/-- C7 witness: concrete roundtrip, missing id, and wrong password. -/
theorem C7_witness :
    query_user dbW 10001 (("pass1").data) =
      some ⟨("张三").data, ("男").data, 25, ("a@b.com").data⟩
    ∧ query_user (fun _ => none) 5 (("pass1").data) = none
    ∧ query_user dbW 10001 (("wrong").data) = none :=
  ⟨C7_create_read_roundtrip.1 (fun _ => none) 10001 infoW,
   C7_create_read_roundtrip.2.1 (fun _ => none) 5 (("pass1").data) rfl,
   C7_create_read_roundtrip.2.2 dbW 10001 (("wrong").data)
     ⟨("张三").data, ("男").data, 25, ("pass1").data, ("a@b.com").data⟩
     rfl (by decide)⟩

/-- C8: `delete` succeeds exactly when the id exists and both stored
password and stored email equal the given ones; on failure the store map
is unchanged; after a successful delete, a read or another delete of the
same id comes back empty. -/
theorem C8_delete_semantics (db : Store) (uid : Nat) (pw em : List Char) :
    ((delete_user db uid pw em).2 = true ↔
      ∃ r, db uid = some r ∧ r.password = pw ∧ r.email = em)
    ∧ ((delete_user db uid pw em).2 = false → (delete_user db uid pw em).1 = db)
    ∧ ((delete_user db uid pw em).2 = true → ∀ pw2 em2,
        query_user (delete_user db uid pw em).1 uid pw2 = none
        ∧ (delete_user (delete_user db uid pw em).1 uid pw2 em2).2 = false) := by
  cases hdb : db uid with
  | none =>
    refine ⟨?_, fun _ => by simp [delete_user, hdb], fun h _ _ => ?_⟩
    · simp [delete_user, hdb]
    · rw [delete_user, hdb] at h
      exact absurd h (by simp)
  | some r =>
    have hred : delete_user db uid pw em =
        if r.password = pw ∧ r.email = em then
          (fun i => if i = uid then none else db i, true)
        else (db, false) := by
      simp only [delete_user, hdb]
    by_cases hc : r.password = pw ∧ r.email = em
    · rw [hred, if_pos hc]
      refine ⟨?_, ?_, ?_⟩
      · exact iff_of_true rfl ⟨r, rfl, hc.1, hc.2⟩
      · intro h
        exact absurd h (by simp)
      · intro _ pw2 em2
        constructor
        · simp [query_user]
        · simp [delete_user]
    · rw [hred, if_neg hc]
      refine ⟨?_, fun _ => rfl, fun h _ _ => ?_⟩
      · simp only [Bool.false_eq_true, false_iff]
        rintro ⟨r2, hr2, hp2, he2⟩
        rw [Option.some.injEq] at hr2
        subst hr2
        exact hc ⟨hp2, he2⟩
      · exact absurd h (by simp)

/-- C8 witness: a successful delete on matching credentials, the follow-up
read and delete both failing, and a mismatched delete leaving the map
unchanged. -/
theorem C8_witness :
    (delete_user dbW 10001 (("pass1").data) (("a@b.com").data)).2 = true
    ∧ query_user (delete_user dbW 10001 (("pass1").data) (("a@b.com").data)).1
        10001 (("pass1").data) = none
    ∧ (delete_user (delete_user dbW 10001 (("pass1").data) (("a@b.com").data)).1
        10001 (("pass1").data) (("a@b.com").data)).2 = false
    ∧ (delete_user dbW 10001 (("nope").data) (("a@b.com").data)).2 = false
    ∧ (delete_user dbW 10001 (("nope").data) (("a@b.com").data)).1 = dbW := by
  have hsucc : (delete_user dbW 10001 (("pass1").data) (("a@b.com").data)).2 = true :=
    (C8_delete_semantics dbW 10001 (("pass1").data) (("a@b.com").data)).1.mpr
      ⟨⟨("张三").data, ("男").data, 25, ("pass1").data, ("a@b.com").data⟩,
        rfl, rfl, rfl⟩
  have hq := (C8_delete_semantics dbW 10001 (("pass1").data)
      (("a@b.com").data)).2.2 hsucc (("pass1").data) (("a@b.com").data)
  have hf : (delete_user dbW 10001 (("nope").data) (("a@b.com").data)).2 = false := rfl
  exact ⟨hsucc, hq.1, hq.2, hf,
    (C8_delete_semantics dbW 10001 (("nope").data) (("a@b.com").data)).2.1 hf⟩

theorem fieldSearchD_shape (label : List Char) :
    ∀ d s : List Char, fieldSearchD label d = some s →
      (!s.isEmpty && s.all Char.isDigit) = true := by
  intro d
  induction d with
  | nil => intro s h; exact absurd h (by simp [fieldSearchD])
  | cons c cs ih =>
    intro s h
    rw [fieldSearchD] at h
    split at h
    · split at h
      · exact ih s h
      · split at h
        · rw [Option.some.injEq] at h
          subst h
          rename_i a rest _ hdig
          rw [List.takeWhile_cons, if_pos hdig]
          simp [List.all_takeWhile, hdig]
        · exact ih s h
    · exact ih s h

theorem reg_missing_first (text d : List Char)
    (hm : markerSearch regMarker text = some d) :
    (regFailing d ≠ [] → ∃ f, f ∈ regFailing d ∧
        parse_registration_info text = Except.error (ParseError.missingField f))
    ∧ ∀ f, regFailing d = [f] →
        parse_registration_info text = Except.error (ParseError.missingField f) := by
  cases hn : fieldSearchS nameLabel d with
  | none =>
    constructor
    · exact fun _ => ⟨"name", by simp [regFailing, regFieldResults, hn],
        by simp [parse_registration_info, hm, hn]⟩
    · intro f hf
      simp [regFailing, regFieldResults, hn] at hf
      rw [← hf.1]
      simp [parse_registration_info, hm, hn]
  | some vn =>
    cases hg : fieldSearchS genderLabel d with
    | none =>
      constructor
      · exact fun _ => ⟨"gender", by simp [regFailing, regFieldResults, hn, hg],
          by simp [parse_registration_info, hm, hn, hg]⟩
      · intro f hf
        simp [regFailing, regFieldResults, hn, hg] at hf
        rw [← hf.1]
        simp [parse_registration_info, hm, hn, hg]
    | some vg =>
      cases ha : fieldSearchD ageLabel d with
      | none =>
        constructor
        · exact fun _ => ⟨"age", by simp [regFailing, regFieldResults, hn, hg, ha],
            by simp [parse_registration_info, hm, hn, hg, ha]⟩
        · intro f hf
          simp [regFailing, regFieldResults, hn, hg, ha] at hf
          rw [← hf.1]
          simp [parse_registration_info, hm, hn, hg, ha]
      | some va =>
        cases hp : fieldSearchS pwLabel d with
        | none =>
          constructor
          · exact fun _ => ⟨"password",
              by simp [regFailing, regFieldResults, hn, hg, ha, hp],
              by simp [parse_registration_info, hm, hn, hg, ha, hp]⟩
          · intro f hf
            simp [regFailing, regFieldResults, hn, hg, ha, hp] at hf
            rw [← hf.1]
            simp [parse_registration_info, hm, hn, hg, ha, hp]
        | some vp =>
          cases he : fieldSearchE emailLabel d with
          | none =>
            constructor
            · exact fun _ => ⟨"email",
                by simp [regFailing, regFieldResults, hn, hg, ha, hp, he],
                by simp [parse_registration_info, hm, hn, hg, ha, hp, he]⟩
            · intro f hf
              simp [regFailing, regFieldResults, hn, hg, ha, hp, he] at hf
              rw [← hf]
              simp [parse_registration_info, hm, hn, hg, ha, hp, he]
          | some ve =>
            constructor
            · intro hne
              exact absurd (by simp [regFailing, regFieldResults, hn, hg, ha, hp, he]) hne
            · intro f hf
              simp [regFailing, regFieldResults, hn, hg, ha, hp, he] at hf

theorem query_missing_first (text d : List Char)
    (hm : markerSearch queryMarker text = some d) :
    (queryFailing d ≠ [] → ∃ f, f ∈ queryFailing d ∧
        parse_query_info text = Except.error (ParseError.missingField f))
    ∧ ∀ f, queryFailing d = [f] →
        parse_query_info text = Except.error (ParseError.missingField f) := by
  cases hu : fieldSearchD uidLabel d with
  | none =>
    constructor
    · exact fun _ => ⟨"user_id", by simp [queryFailing, queryFieldResults, hu],
        by simp [parse_query_info, hm, hu]⟩
    · intro f hf
      simp [queryFailing, queryFieldResults, hu] at hf
      rw [← hf.1]
      simp [parse_query_info, hm, hu]
  | some vu =>
    cases hp : fieldSearchS pwLabel d with
    | none =>
      constructor
      · exact fun _ => ⟨"password", by simp [queryFailing, queryFieldResults, hu, hp],
          by simp [parse_query_info, hm, hu, hp]⟩
      · intro f hf
        simp [queryFailing, queryFieldResults, hu, hp] at hf
        rw [← hf]
        simp [parse_query_info, hm, hu, hp]
    | some vp =>
      constructor
      · intro hne
        exact absurd (by simp [queryFailing, queryFieldResults, hu, hp]) hne
      · intro f hf
        simp [queryFailing, queryFieldResults, hu, hp] at hf

theorem delete_missing_first (text d : List Char)
    (hm : markerSearch deleteMarker text = some d) :
    (deleteFailing d ≠ [] → ∃ f, f ∈ deleteFailing d ∧
        parse_delete_info text = Except.error (ParseError.missingField f))
    ∧ ∀ f, deleteFailing d = [f] →
        parse_delete_info text = Except.error (ParseError.missingField f) := by
  cases hu : fieldSearchD uidLabel d with
  | none =>
    constructor
    · exact fun _ => ⟨"user_id", by simp [deleteFailing, deleteFieldResults, hu],
        by simp [parse_delete_info, hm, hu]⟩
    · intro f hf
      simp [deleteFailing, deleteFieldResults, hu] at hf
      rw [← hf.1]
      simp [parse_delete_info, hm, hu]
  | some vu =>
    cases hp : fieldSearchS pwLabel d with
    | none =>
      constructor
      · exact fun _ => ⟨"password", by simp [deleteFailing, deleteFieldResults, hu, hp],
          by simp [parse_delete_info, hm, hu, hp]⟩
      · intro f hf
        simp [deleteFailing, deleteFieldResults, hu, hp] at hf
        rw [← hf.1]
        simp [parse_delete_info, hm, hu, hp]
    | some vp =>
      cases he : fieldSearchE emailLabel d with
      | none =>
        constructor
        · exact fun _ => ⟨"email", by simp [deleteFailing, deleteFieldResults, hu, hp, he],
            by simp [parse_delete_info, hm, hu, hp, he]⟩
        · intro f hf
          simp [deleteFailing, deleteFieldResults, hu, hp, he] at hf
          rw [← hf]
          simp [parse_delete_info, hm, hu, hp, he]
      | some ve =>
        constructor
        · intro hne
          exact absurd (by simp [deleteFailing, deleteFieldResults, hu, hp, he]) hne
        · intro f hf
          simp [deleteFailing, deleteFieldResults, hu, hp, he] at hf

/-- C5: extraction is all-or-nothing for all three schemas.  With the
marker absent the result is the marker-not-found failure.  With the marker
present and any field pattern failing on the bracketed span, the result is
a missing-field failure naming a failing field (the first in dict order),
and in particular when exactly one field fails it is named; no partial
record is ever returned in these cases, since the result is an error. -/
theorem C5_extraction_all_or_nothing (text : List Char) :
    ((markerSearch regMarker text = none →
        parse_registration_info text = Except.error ParseError.markerNotFound)
      ∧ ∀ d, markerSearch regMarker text = some d →
          ((regFailing d ≠ [] → ∃ f, f ∈ regFailing d ∧
              parse_registration_info text = Except.error (ParseError.missingField f))
            ∧ ∀ f, regFailing d = [f] →
              parse_registration_info text = Except.error (ParseError.missingField f)))
    ∧ ((markerSearch queryMarker text = none →
        parse_query_info text = Except.error ParseError.markerNotFound)
      ∧ ∀ d, markerSearch queryMarker text = some d →
          ((queryFailing d ≠ [] → ∃ f, f ∈ queryFailing d ∧
              parse_query_info text = Except.error (ParseError.missingField f))
            ∧ ∀ f, queryFailing d = [f] →
              parse_query_info text = Except.error (ParseError.missingField f)))
    ∧ ((markerSearch deleteMarker text = none →
        parse_delete_info text = Except.error ParseError.markerNotFound)
      ∧ ∀ d, markerSearch deleteMarker text = some d →
          ((deleteFailing d ≠ [] → ∃ f, f ∈ deleteFailing d ∧
              parse_delete_info text = Except.error (ParseError.missingField f))
            ∧ ∀ f, deleteFailing d = [f] →
              parse_delete_info text = Except.error (ParseError.missingField f))) :=
  ⟨⟨fun hm => by simp [parse_registration_info, hm],
    fun d hm => reg_missing_first text d hm⟩,
   ⟨fun hm => by simp [parse_query_info, hm],
    fun d hm => query_missing_first text d hm⟩,
   ⟨fun hm => by simp [parse_delete_info, hm],
    fun d hm => delete_missing_first text d hm⟩⟩

/-- C5 witness: a registration confirmation missing exactly the password
field extracts to the missing-field failure naming `password`. -/
theorem C5_witness :
    parse_registration_info regTextMissingPw =
      Except.error (ParseError.missingField "password") :=
  ((C5_extraction_all_or_nothing regTextMissingPw).1.2 regSpanMissingPw rfl).2
    "password" (by decide)

theorem pyInt?_of_fieldSearchD (label d s : List Char)
    (h : fieldSearchD label d = some s) : pyInt? s = some (natOfDigits s) := by
  rw [pyInt?, if_pos (fieldSearchD_shape label d s h)]

theorem reg_not_invalid (text : List Char) (f : String) :
    parse_registration_info text ≠ Except.error (ParseError.invalidFormat f) := by
  cases hm : markerSearch regMarker text with
  | none => simp [parse_registration_info, hm]
  | some d =>
    cases hn : fieldSearchS nameLabel d with
    | none => simp [parse_registration_info, hm, hn]
    | some vn =>
      cases hg : fieldSearchS genderLabel d with
      | none => simp [parse_registration_info, hm, hn, hg]
      | some vg =>
        cases ha : fieldSearchD ageLabel d with
        | none => simp [parse_registration_info, hm, hn, hg, ha]
        | some va =>
          cases hp : fieldSearchS pwLabel d with
          | none => simp [parse_registration_info, hm, hn, hg, ha, hp]
          | some vp =>
            cases he : fieldSearchE emailLabel d with
            | none => simp [parse_registration_info, hm, hn, hg, ha, hp, he]
            | some ve =>
              simp [parse_registration_info, hm, hn, hg, ha, hp, he,
                pyInt?_of_fieldSearchD ageLabel d va ha]

theorem query_not_invalid (text : List Char) (f : String) :
    parse_query_info text ≠ Except.error (ParseError.invalidFormat f) := by
  cases hm : markerSearch queryMarker text with
  | none => simp [parse_query_info, hm]
  | some d =>
    cases hu : fieldSearchD uidLabel d with
    | none => simp [parse_query_info, hm, hu]
    | some vu =>
      cases hp : fieldSearchS pwLabel d with
      | none => simp [parse_query_info, hm, hu, hp]
      | some vp =>
        simp [parse_query_info, hm, hu, hp,
          pyInt?_of_fieldSearchD uidLabel d vu hu]

theorem delete_not_invalid (text : List Char) (f : String) :
    parse_delete_info text ≠ Except.error (ParseError.invalidFormat f) := by
  cases hm : markerSearch deleteMarker text with
  | none => simp [parse_delete_info, hm]
  | some d =>
    cases hu : fieldSearchD uidLabel d with
    | none => simp [parse_delete_info, hm, hu]
    | some vu =>
      cases hp : fieldSearchS pwLabel d with
      | none => simp [parse_delete_info, hm, hu, hp]
      | some vp =>
        cases he : fieldSearchE emailLabel d with
        | none => simp [parse_delete_info, hm, hu, hp, he]
        | some ve =>
          simp [parse_delete_info, hm, hu, hp, he,
            pyInt?_of_fieldSearchD uidLabel d vu hu]

theorem reg_age_in_failing (d : List Char)
    (ha : fieldSearchD ageLabel d = none) : "age" ∈ regFailing d := by
  apply List.mem_map.mpr
  refine ⟨("age", fieldSearchD ageLabel d), ?_, rfl⟩
  exact List.mem_filter.mpr ⟨by simp [regFieldResults], by simp [ha]⟩

theorem query_uid_in_failing (d : List Char)
    (hu : fieldSearchD uidLabel d = none) : "user_id" ∈ queryFailing d := by
  apply List.mem_map.mpr
  refine ⟨("user_id", fieldSearchD uidLabel d), ?_, rfl⟩
  exact List.mem_filter.mpr ⟨by simp [queryFieldResults], by simp [hu]⟩

theorem delete_uid_in_failing (d : List Char)
    (hu : fieldSearchD uidLabel d = none) : "user_id" ∈ deleteFailing d := by
  apply List.mem_map.mpr
  refine ⟨("user_id", fieldSearchD uidLabel d), ?_, rfl⟩
  exact List.mem_filter.mpr ⟨by simp [deleteFieldResults], by simp [hu]⟩

/-- C6 (amended): the numeric patterns `(\d+)` only capture digit strings,
on which the `int` conversion always succeeds, so the invalid-format
outcome guarding that conversion is unreachable in all three parsers.  A
non-numeric value makes the numeric field's pattern itself fail, so
extraction fails with a missing-field failure (naming a failing field) and
never returns a record. -/
theorem C6_nonnumeric_gives_missing_field (text : List Char) (f : String) :
    (parse_registration_info text ≠ Except.error (ParseError.invalidFormat f))
    ∧ (parse_query_info text ≠ Except.error (ParseError.invalidFormat f))
    ∧ (parse_delete_info text ≠ Except.error (ParseError.invalidFormat f))
    ∧ (∀ d, markerSearch regMarker text = some d →
        fieldSearchD ageLabel d = none →
        ∃ g, g ∈ regFailing d ∧
          parse_registration_info text = Except.error (ParseError.missingField g))
    ∧ (∀ d, markerSearch queryMarker text = some d →
        fieldSearchD uidLabel d = none →
        ∃ g, g ∈ queryFailing d ∧
          parse_query_info text = Except.error (ParseError.missingField g))
    ∧ (∀ d, markerSearch deleteMarker text = some d →
        fieldSearchD uidLabel d = none →
        ∃ g, g ∈ deleteFailing d ∧
          parse_delete_info text = Except.error (ParseError.missingField g)) :=
  ⟨reg_not_invalid text f, query_not_invalid text f, delete_not_invalid text f,
   fun d hm ha => (reg_missing_first text d hm).1
     (List.ne_nil_of_mem (reg_age_in_failing d ha)),
   fun d hm hu => (query_missing_first text d hm).1
     (List.ne_nil_of_mem (query_uid_in_failing d hu)),
   fun d hm hu => (delete_missing_first text d hm).1
     (List.ne_nil_of_mem (delete_uid_in_failing d hu))⟩

/-- C6: the claim that a non-numeric numeric-field value yields the
invalid-format failure is false on the code: with `年龄: abc` the digit
pattern fails to match, so the parser reports the field as missing; the
missing-field and invalid-format outcomes are distinct. -/
theorem C6_counterexample :
    parse_registration_info ageBadText =
      Except.error (ParseError.missingField "age")
    ∧ ParseError.missingField "age" ≠ ParseError.invalidFormat "age" :=
  ⟨rfl, by decide⟩

/-- C6 (amended) witness at the concrete non-numeric-age input. -/
theorem C6_witness :
    parse_registration_info ageBadText ≠
      Except.error (ParseError.invalidFormat "age")
    ∧ ∃ g, g ∈ regFailing ageBadSpan ∧
        parse_registration_info ageBadText =
          Except.error (ParseError.missingField g) :=
  ⟨(C6_nonnumeric_gives_missing_field ageBadText "age").1,
   (C6_nonnumeric_gives_missing_field ageBadText "age").2.2.2.1 ageBadSpan
     rfl (by decide)⟩

theorem findClose_sound : ∀ l mid : List Char, findClose l = some mid →
    (∃ post, l = mid ++ closeFence ++ post) ∧
      containsSub closeFence mid = false := by
  intro l
  induction l with
  | nil => intro mid h; exact absurd h (by simp [findClose])
  | cons c cs ih =>
    intro mid h
    rw [findClose] at h
    split at h
    · rename_i hpre
      rw [Option.some.injEq] at h
      subst h
      refine ⟨?_, by decide⟩
      obtain ⟨post, hpost⟩ := List.isPrefixOf_iff_prefix.mp hpre
      exact ⟨post, by simpa using hpost.symm⟩
    · rename_i hpre
      rw [Option.map_eq_some'] at h
      obtain ⟨mid', hmid', rfl⟩ := h
      obtain ⟨⟨post, hpost⟩, hnc⟩ := ih mid' hmid'
      have hnp : closeFence.isPrefixOf (c :: mid') = false := by
        by_contra hcon
        rw [Bool.not_eq_false] at hcon
        have h1 : closeFence <+: (c :: mid') :=
          List.isPrefixOf_iff_prefix.mp hcon
        have h2 : (c :: mid') <+: (c :: cs) := by
          rw [show c :: cs = (c :: mid') ++ (closeFence ++ post) from
            by simp [hpost]]
          exact List.prefix_append _ _
        exact hpre (List.isPrefixOf_iff_prefix.mpr (h1.trans h2))
      refine ⟨⟨post, by simp [hpost]⟩, ?_⟩
      rw [containsSub]
      simp [hnp, hnc]

theorem findFence_sound : ∀ s mid : List Char, findFence s = some mid →
    ∃ pre post, s = pre ++ openFence ++ mid ++ closeFence ++ post
      ∧ containsSub closeFence mid = false := by
  intro s
  induction s with
  | nil => intro mid h; exact absurd h (by simp [findFence])
  | cons c cs ih =>
    intro mid h
    rw [findFence] at h
    split at h
    · rename_i hpre
      split at h
      · rename_i g hg
        rw [Option.some.injEq] at h
        subst h
        obtain ⟨⟨post, hpost⟩, hnc⟩ := findClose_sound _ _ hg
        refine ⟨[], post, ?_, hnc⟩
        have heq := List.prefix_iff_eq_append.mp
          (List.isPrefixOf_iff_prefix.mp hpre)
        rw [List.nil_append]
        calc c :: cs = openFence ++ List.drop openFence.length (c :: cs) :=
              heq.symm
          _ = openFence ++ g ++ closeFence ++ post := by
              rw [hpost]; simp
      · obtain ⟨pre, post, hdec, hnc⟩ := ih mid h
        exact ⟨c :: pre, post, by simp [hdec], hnc⟩
    · obtain ⟨pre, post, hdec, hnc⟩ := ih mid h
      exact ⟨c :: pre, post, by simp [hdec], hnc⟩

/-- C10 (amended): the grading-agent parser first removes every newline
from the model output; it then parses as JSON the stripped content of the
first fenced ```json block of that newline-free text if one exists (the
captured content is the shortest span inside a fence), otherwise the whole
newline-free text — not the entire original text; whenever the chosen
content is not valid JSON, parsing raises the hard
`Invalid JSON output after extraction` error, never a silent or partial
result. -/
theorem C10_json_extraction (α : Type) (loads : List Char → Option α)
    (text : List Char) :
    (∀ mid, findFence (removeNewlines text) = some mid →
        extract_json_content text = pyStrip mid
        ∧ ∃ pre post, removeNewlines text =
            pre ++ openFence ++ mid ++ closeFence ++ post
          ∧ containsSub closeFence mid = false)
    ∧ (findFence (removeNewlines text) = none →
        extract_json_content text = removeNewlines text)
    ∧ (loads (extract_json_content text) = none →
        jsonParserParse loads text = Except.error
          (invalidJsonMsgPre ++ extract_json_content text ++ invalidJsonMsgSuf))
    ∧ (∀ v, loads (extract_json_content text) = some v →
        jsonParserParse loads text = Except.ok v) := by
  refine ⟨fun mid hmid => ⟨?_, findFence_sound _ _ hmid⟩, fun hnone => ?_,
    fun hl => ?_, fun v hv => ?_⟩
  · simp [extract_json_content, hmid]
  · simp [extract_json_content, hnone]
  · simp [jsonParserParse, hl]
  · simp [jsonParserParse, hv]

/-- C10: the claim that, absent a fenced block, the entire text is parsed
as JSON (with a hard error whenever that content is invalid) is false on
the code: newlines are removed first.  On `12\n34` — not valid JSON as a
whole — the parser parses `1234` and succeeds, where the claim demands a
hard error. -/
theorem C10_counterexample :
    findFence (removeNewlines rawNewlineNum) = none
    ∧ extract_json_content rawNewlineNum ≠ rawNewlineNum
    ∧ jsonParserParse loadsCex rawNewlineNum = Except.ok ()
    ∧ loadsCex rawNewlineNum = none :=
  ⟨rfl, by decide, rfl, rfl⟩

/-- C10 (amended) witness at a concrete fenced output. -/
theorem C10_witness :
    (extract_json_content fencedW = pyStrip fencedWMid
      ∧ ∃ pre post, removeNewlines fencedW =
          pre ++ openFence ++ fencedWMid ++ closeFence ++ post
        ∧ containsSub closeFence fencedWMid = false)
    ∧ jsonParserParse loadsW fencedW = Except.ok () :=
  ⟨(C10_json_extraction Unit loadsW fencedW).1 fencedWMid rfl,
   (C10_json_extraction Unit loadsW fencedW).2.2.2 () rfl⟩

end Agent
